import Mathlib

/-!
Shallow embedding of `src/helper/options.c` (OpenOCD-Nuvoton).

The file models the three components of that translation unit:
the executable locator `find_exe_path`, the default search-directory
builder `add_default_dirs`, and the option-parsing loop
`parse_cmdline_args`.

Build-time configuration (`_WIN32`, `IS_DARWIN`, the BSD sysctl macros,
`NUVOTON_CUSTOMIZED`, `BINDIR`, `PKGDATADIR`) is a `BuildConfig` value.
Note `HAVE_REALPATH` is defined exactly when `_WIN32` is not (options.c
lines 36-38), and the first branch of `find_exe_path`
(`IS_WIN32 && !IS_CYGWIN`) coincides with `_WIN32` being defined, so a
single `Platform` tag drives every preprocessor split.

Runtime facts the C code obtains from the operating system (the
`GetModuleFileName` / `proc_pidpath` / `sysctl` lookups, `realpath`,
`getenv`) are an `Env` of oracles; `none` models a failed lookup or a
NULL return.

C functions that can return NULL are `Option`-valued; code paths that
dereference a NULL pointer (the unchecked `strrchr` uses) are modelled
as `Except.error ()`, keeping undefined behaviour distinct from an
ordinary NULL result.
-/

namespace OpenocdOptions

/-- The compile-time platform split used by options.c.  `win32` is a
native Windows build (`_WIN32` defined, hence no `HAVE_REALPATH`);
`darwin` is `IS_DARWIN`; `bsd` is the `CTL_KERN`/`KERN_PROC` sysctl
branch; `posix` is the final `HAVE_REALPATH` branch (Linux, Cygwin,
Solaris, ...). -/
inductive Platform
  | win32
  | darwin
  | bsd
  | posix
deriving DecidableEq

/-- Build-time configuration: platform, the `NUVOTON_CUSTOMIZED` macro,
and the configured `BINDIR` / `PKGDATADIR` constants. -/
structure BuildConfig where
  platform : Platform
  nuvoton : Bool
  bindir : String
  pkgdatadir : String
deriving DecidableEq

/-- Runtime oracles for the OS facilities consumed by options.c.
`getModuleFileName` is the raw (backslash-separated) result of
`GetModuleFileName`, `none` when the `malloc` before it fails.
`procPidpath` is the Darwin `proc_pidpath` result.  `sysctlPath` is the
BSD `sysctl(KERN_PROC_PATHNAME)` result.  `realpath` and `getenv` model
the libc calls, `none` for a NULL return. -/
structure Env where
  getModuleFileName : Option String
  procPidpath : Option String
  sysctlPath : Option String
  realpath : String → Option String
  getenv : String → Option String

/-- Decidable equality for `Except`, used to evaluate the embedded
functions on concrete inputs. -/
def exceptDecEq {ε α : Type} [DecidableEq ε] [DecidableEq α] :
    DecidableEq (Except ε α) := fun a b =>
  match a, b with
  | Except.error e1, Except.error e2 =>
    match decEq e1 e2 with
    | isTrue h => isTrue (by rw [h])
    | isFalse h => isFalse (by intro hx; cases hx; exact h rfl)
  | Except.error _, Except.ok _ => isFalse (by intro hx; cases hx)
  | Except.ok _, Except.error _ => isFalse (by intro hx; cases hx)
  | Except.ok a1, Except.ok a2 =>
    match decEq a1 a2 with
    | isTrue h => isTrue (by rw [h])
    | isFalse h => isFalse (by intro hx; cases hx; exact h rfl)

instance {ε α : Type} [DecidableEq ε] [DecidableEq α] :
    DecidableEq (Except ε α) := exceptDecEq

/-- Backslash-to-slash conversion applied to the `GetModuleFileName`
result (options.c lines 76-79). -/
def slashify (s : String) : String :=
  String.mk (s.toList.map (fun c => if c = '\\' then '/' else c))

/-- Model of `*strrchr(s, '/') = '\0'`: cut the string at its last
slash.  `none` when the string holds no `'/'`, i.e. when `strrchr`
returns NULL and the store would dereference NULL. -/
def strrchrCut (s : String) : Option String :=
  if s.toList.contains '/' then
    some (String.mk (((s.toList.reverse.dropWhile (fun c => c ≠ '/')).tail).reverse))
  else
    none

/-- The per-platform lookup inside the `do ... while (0)` block of
`find_exe_path` (options.c lines 68-118): the value of `exepath` when
the block falls through. -/
def platformExepath (cfg : BuildConfig) (env : Env) : Option String :=
  match cfg.platform with
  | Platform.win32 => Option.map slashify env.getModuleFileName
  | Platform.darwin => env.procPidpath
  | Platform.bsd =>
    match env.sysctlPath with
    | none => none
    | some p2 => env.realpath p2
  | Platform.posix =>
    match env.realpath "/proc/self/exe" with
    | some e => some e
    | none =>
      match env.realpath "/proc/self/path/a.out" with
      | some e => some e
      | none => env.realpath "/proc/curproc/file"

/-- `find_exe_path` (options.c lines 64-134).  On a successful platform
lookup the file name is stripped at the last `'/'`
(`*strrchr(exepath, '/') = '\0'`, line 122) — `Except.error ()` when
that dereferences NULL.  Otherwise a warning is logged and the fallback
is `realpath(BINDIR)` (or `strdup(BINDIR)` on builds without
`HAVE_REALPATH`), which may itself be NULL. -/
def find_exe_path (cfg : BuildConfig) (env : Env) : Except Unit (Option String) :=
  match platformExepath cfg env with
  | some exepath =>
    match strrchrCut exepath with
    | some dir => Except.ok (some dir)
    | none => Except.error ()
  | none =>
    Except.ok (if cfg.platform = Platform.win32 then some cfg.bindir
               else env.realpath cfg.bindir)

/-- `find_suffix` (options.c lines 136-148), returning the index of the
suffix occurrence instead of a pointer; `none` models a NULL return. -/
def find_suffix (text sfx : String) : Option Nat :=
  let t := text.toList
  let s := sfx.toList
  if s.length = 0 then some t.length
  else if s.length > t.length then none
  else if t.drop (t.length - s.length) ≠ s then none
  else some (t.length - s.length)

/-- The `end_of_prefix` store (options.c lines 160-166): truncate
`text` at the suffix occurrence when `find_suffix` found one, leave it
unchanged otherwise. -/
def stripAtSuffix (text sfx : String) : String :=
  match find_suffix text sfx with
  | some i => String.mk (text.toList.take i)
  | none => text

/-- The executable directory as `add_default_dirs` sees it after its
own `*strrchr(exepath, '/') = '\0'` (options.c lines 154-157).  The
error cases model the two NULL dereferences: `strrchr` applied to a
NULL `exepath`, and a NULL `strrchr` result when `exepath` holds no
slash. -/
def exeDirStripped (cfg : BuildConfig) (env : Env) : Except Unit String :=
  match find_exe_path cfg env with
  | Except.error _ => Except.error ()
  | Except.ok none => Except.error ()
  | Except.ok (some exepath) =>
    match strrchrCut exepath with
    | none => Except.error ()
    | some dir => Except.ok dir

/-- The `run_prefix` value of `add_default_dirs` (options.c lines
159-169): on a `_WIN32` build with `NUVOTON_CUSTOMIZED` the literal
suffix `"bin"` is stripped, otherwise the configured `BINDIR`. -/
def run_prefix_of (cfg : BuildConfig) (env : Env) : Except Unit String :=
  match exeDirStripped cfg env with
  | Except.error _ => Except.error ()
  | Except.ok dir =>
    Except.ok (if cfg.platform = Platform.win32 ∧ cfg.nuvoton = true then
                 stripAtSuffix dir "bin"
               else
                 stripAtSuffix dir cfg.bindir)

/-- `add_default_dirs` (options.c lines 150-232): the ordered list of
directories passed to `add_script_search_dir`, built in source order
(HOME, OPENOCD_SCRIPTS, APPDATA on `_WIN32`, then the two
installation-relative directories chosen by the
`_WIN32 && NUVOTON_CUSTOMIZED` split). -/
def add_default_dirs (cfg : BuildConfig) (env : Env) : Except Unit (List String) :=
  match run_prefix_of cfg env with
  | Except.error _ => Except.error ()
  | Except.ok rp =>
    let dirs : List String := []
    let dirs := match env.getenv "HOME" with
      | some home => dirs ++ [home ++ "/.openocd"]
      | none => dirs
    let dirs := match env.getenv "OPENOCD_SCRIPTS" with
      | some scr => dirs ++ [scr]
      | none => dirs
    let dirs := if cfg.platform = Platform.win32 then
        match env.getenv "APPDATA" with
        | some ad => dirs ++ [ad ++ "/OpenOCD"]
        | none => dirs
      else dirs
    let dirs := if cfg.platform = Platform.win32 ∧ cfg.nuvoton = true then
        dirs ++ [rp ++ "/site"] ++ [rp ++ "/scripts"]
      else
        dirs ++ [rp ++ cfg.pkgdatadir ++ "/site"] ++ [rp ++ cfg.pkgdatadir ++ "/scripts"]
    Except.ok dirs

/-- Modelled from the spec, for comparison with `run_prefix_of`: the
spec's run_prefix is the executable directory (the executable path with
exactly the trailing filename component stripped, i.e. the
`find_exe_path` result) with the known install-bin suffix stripped when
present, with no additional path component removed. -/
def runPrefixSpec (cfg : BuildConfig) (env : Env) : Except Unit String :=
  match find_exe_path cfg env with
  | Except.ok (some exedir) =>
    Except.ok (if cfg.platform = Platform.win32 ∧ cfg.nuvoton = true then
                 stripAtSuffix exedir "bin"
               else
                 stripAtSuffix exedir cfg.bindir)
  | _ => Except.error ()

/-- The three environment-derived default entries (options.c lines
179-204), named for use in theorem statements. -/
def envDirs (cfg : BuildConfig) (env : Env) : List String :=
  (match env.getenv "HOME" with
   | some home => [home ++ "/.openocd"]
   | none => [])
  ++ (match env.getenv "OPENOCD_SCRIPTS" with
      | some scr => [scr]
      | none => [])
  ++ (if cfg.platform = Platform.win32 then
        match env.getenv "APPDATA" with
        | some ad => [ad ++ "/OpenOCD"]
        | none => []
      else [])

/-- The two installation-relative default entries (options.c lines
206-230), as a function of the computed run prefix. -/
def installDirs (cfg : BuildConfig) (rp : String) : List String :=
  if cfg.platform = Platform.win32 ∧ cfg.nuvoton = true then
    [rp ++ "/site", rp ++ "/scripts"]
  else
    [rp ++ cfg.pkgdatadir ++ "/site", rp ++ cfg.pkgdatadir ++ "/scripts"]

/-- One `getopt_long` result inside the `while (1)` loop of
`parse_cmdline_args` (options.c line 242), before the `-1` end marker.
`longHelp` / `longVersion` are the return value `0` after the flag
pointers of the `long_options` table fired; the lettered constructors
are the short return characters (shared by the long synonyms, whose
`val` fields are the same letters); `unknown` is the `'?'` that
`getopt_long` returns for an option outside the declared grammar or a
malformed argument list.  `optarg` is carried as the argument;
`Option` where the C code can see a NULL `optarg`. -/
inductive Opt
  | longHelp
  | longVersion
  | h
  | v
  | f (arg : String)
  | s (arg : String)
  | d (arg : Option String)
  | l (arg : Option String)
  | c (arg : Option String)
  | p
  | unknown
deriving DecidableEq

/-- The mutable state touched by `parse_cmdline_args`: the deferred
configuration-command queue (`add_config_command`), the lines run
immediately (`command_run_line`), the script search-path list
(`add_script_search_dir`), the two sticky flags, and the number of
`LOG_WARNING` messages emitted. -/
structure CmdState where
  queue : List String
  executed : List String
  searchDirs : List String
  help_flag : Bool
  version_flag : Bool
  warnings : Nat
deriving DecidableEq

/-- The state before parsing begins: empty collaborator state and both
flags clear (options.c line 40). -/
def initState : CmdState :=
  { queue := [], executed := [], searchDirs := [],
    help_flag := false, version_flag := false, warnings := 0 }

/-- One iteration of the `switch` in `parse_cmdline_args` (options.c
lines 248-292).  Note the switch has no `'?'` (and no default) case:
an unrecognized option leaves the state untouched and the loop
continues. -/
def applyOpt (st : CmdState) (o : Opt) : CmdState :=
  match o with
  | Opt.longHelp => { st with help_flag := true }
  | Opt.longVersion => { st with version_flag := true }
  | Opt.h => { st with help_flag := true }
  | Opt.v => { st with version_flag := true }
  | Opt.f pth =>
    { st with queue := st.queue ++ ["script \x7b" ++ pth ++ "\x7d"] }
  | Opt.s dir => { st with searchDirs := st.searchDirs ++ [dir] }
  | Opt.d a =>
    { st with executed := st.executed ++ ["debug_level " ++ Option.getD a "3"] }
  | Opt.l a =>
    match a with
    | some pth => { st with executed := st.executed ++ ["log_output " ++ pth] }
    | none => st
  | Opt.c a =>
    match a with
    | some txt => { st with queue := st.queue ++ [txt] }
    | none => st
  | Opt.p =>
    { st with executed := st.executed ++ ["gdb_port pipe; log_output openocd.log"],
              warnings := st.warnings + 1 }
  | Opt.unknown => st

/-- The fixed `LOG_OUTPUT` usage text printed when `help_flag` is set
(options.c lines 296-303). -/
def usageLines : List String :=
  ["Open On-Chip Debugger\nLicensed under GNU GPL v2\n",
   "--help       | -h\tdisplay this help\n",
   "--version    | -v\tdisplay OpenOCD version\n",
   "--file       | -f\tuse configuration file <name>\n",
   "--search     | -s\tdir to search for config files and scripts\n",
   "--debug      | -d\tset debug level <0-4>\n",
   "--log_output | -l\tredirect log output to file <name>\n",
   "--command    | -c\trun <command>\n"]

/-- How `parse_cmdline_args` ends.  `exitFailure` is the `exit(-1)`
after printing the usage text; `exitSuccess` is the `exit(0)` for
`version_flag`; `fatalError` marks the NULL dereference inside
`add_default_dirs`; `ok` is the `return ERROR_OK` path, carrying the
final state. -/
inductive ParseOutcome
  | exitFailure (output : List String) (st : CmdState)
  | exitSuccess (st : CmdState)
  | fatalError
  | ok (st : CmdState)
deriving DecidableEq

/-- `parse_cmdline_args` (options.c lines 234-319): fold the option
stream through the switch, then check `help_flag` (usage + `exit(-1)`),
then `version_flag` (`exit(0)`), then call `add_default_dirs` and
return `ERROR_OK`. -/
def parse_cmdline_args (cfg : BuildConfig) (env : Env) (opts : List Opt) : ParseOutcome :=
  if (List.foldl applyOpt initState opts).help_flag then
    ParseOutcome.exitFailure usageLines (List.foldl applyOpt initState opts)
  else if (List.foldl applyOpt initState opts).version_flag then
    ParseOutcome.exitSuccess (List.foldl applyOpt initState opts)
  else
    match add_default_dirs cfg env with
    | Except.error _ => ParseOutcome.fatalError
    | Except.ok ds =>
      ParseOutcome.ok
        { List.foldl applyOpt initState opts with
          searchDirs := (List.foldl applyOpt initState opts).searchDirs ++ ds }

/-- The `-s` arguments of an option stream, in order. -/
def sArg : Opt → Option String
  | Opt.s dir => some dir
  | _ => none

/-- Option occurrences that set `help_flag`. -/
def isHelpOpt : Opt → Bool
  | Opt.longHelp => true
  | Opt.h => true
  | _ => false

/-- Option occurrences that set `version_flag`. -/
def isVersionOpt : Opt → Bool
  | Opt.longVersion => true
  | Opt.v => true
  | _ => false

/-- Streams free of help/version requests. -/
def noHelpVersionOpt (o : Opt) : Bool := !(isHelpOpt o || isVersionOpt o)

/-- Option occurrences other than the `'?'` returned for an
unrecognized option. -/
def isKnown : Opt → Bool
  | Opt.unknown => false
  | _ => true

/-! Concrete fixtures used to evaluate the embedding. -/

/-- A standard POSIX build: `BINDIR=/usr/local/bin`,
`PKGDATADIR=/usr/local/share/openocd`. -/
def cfg0 : BuildConfig :=
  { platform := Platform.posix, nuvoton := false,
    bindir := "/usr/local/bin", pkgdatadir := "/usr/local/share/openocd" }

/-- A native Windows Nuvoton build with a slash-free `BINDIR`. -/
def cfgWinNuv : BuildConfig :=
  { platform := Platform.win32, nuvoton := true,
    bindir := "bin", pkgdatadir := "/data" }

/-- An environment where the executable resolves to
`/usr/local/bin/openocd` and no environment variables are set. -/
def env0 : Env :=
  { getModuleFileName := none, procPidpath := none, sysctlPath := none,
    realpath := fun s =>
      if s = "/proc/self/exe" then some "/usr/local/bin/openocd" else none,
    getenv := fun _ => none }

/-- An environment where every OS lookup fails: all platform
mechanisms and every `realpath` call return NULL. -/
def envNone : Env :=
  { getModuleFileName := none, procPidpath := none, sysctlPath := none,
    realpath := fun _ => none,
    getenv := fun _ => none }

/-! Helper lemmas. -/

theorem strrchrCut_contains (s t : String) (h : strrchrCut s = some t) :
    s.toList.contains '/' = true := by
  by_cases hc : s.toList.contains '/' = true
  · exact hc
  · unfold strrchrCut at h
    rw [if_neg hc] at h
    cases h

theorem strrchrCut_of_contains (s : String) (h : s.toList.contains '/' = true) :
    ∃ t, strrchrCut s = some t := by
  unfold strrchrCut
  rw [if_pos h]
  exact ⟨_, rfl⟩

theorem foldl_searchDirs (opts : List Opt) (st : CmdState) :
    (List.foldl applyOpt st opts).searchDirs = st.searchDirs ++ opts.filterMap sArg := by
  induction opts generalizing st with
  | nil => simp
  | cons o rest ih =>
    rw [List.foldl_cons, ih]
    cases o with
    | l arg => cases arg <;> simp [applyOpt, sArg]
    | c arg => cases arg <;> simp [applyOpt, sArg]
    | longHelp => simp [applyOpt, sArg]
    | longVersion => simp [applyOpt, sArg]
    | h => simp [applyOpt, sArg]
    | v => simp [applyOpt, sArg]
    | f arg => simp [applyOpt, sArg]
    | s arg => simp [applyOpt, sArg]
    | d arg => simp [applyOpt, sArg]
    | p => simp [applyOpt, sArg]
    | unknown => simp [applyOpt, sArg]

theorem foldl_help_flag (opts : List Opt) (st : CmdState) :
    (List.foldl applyOpt st opts).help_flag = (st.help_flag || opts.any isHelpOpt) := by
  induction opts generalizing st with
  | nil => simp
  | cons o rest ih =>
    rw [List.foldl_cons, ih]
    cases o with
    | l arg => cases arg <;> simp [applyOpt, isHelpOpt, Bool.or_assoc]
    | c arg => cases arg <;> simp [applyOpt, isHelpOpt, Bool.or_assoc]
    | longHelp => simp [applyOpt, isHelpOpt, Bool.or_assoc]
    | longVersion => simp [applyOpt, isHelpOpt, Bool.or_assoc]
    | h => simp [applyOpt, isHelpOpt, Bool.or_assoc]
    | v => simp [applyOpt, isHelpOpt, Bool.or_assoc]
    | f arg => simp [applyOpt, isHelpOpt, Bool.or_assoc]
    | s arg => simp [applyOpt, isHelpOpt, Bool.or_assoc]
    | d arg => simp [applyOpt, isHelpOpt, Bool.or_assoc]
    | p => simp [applyOpt, isHelpOpt, Bool.or_assoc]
    | unknown => simp [applyOpt, isHelpOpt, Bool.or_assoc]

theorem foldl_version_flag (opts : List Opt) (st : CmdState) :
    (List.foldl applyOpt st opts).version_flag = (st.version_flag || opts.any isVersionOpt) := by
  induction opts generalizing st with
  | nil => simp
  | cons o rest ih =>
    rw [List.foldl_cons, ih]
    cases o with
    | l arg => cases arg <;> simp [applyOpt, isVersionOpt, Bool.or_assoc]
    | c arg => cases arg <;> simp [applyOpt, isVersionOpt, Bool.or_assoc]
    | longHelp => simp [applyOpt, isVersionOpt, Bool.or_assoc]
    | longVersion => simp [applyOpt, isVersionOpt, Bool.or_assoc]
    | h => simp [applyOpt, isVersionOpt, Bool.or_assoc]
    | v => simp [applyOpt, isVersionOpt, Bool.or_assoc]
    | f arg => simp [applyOpt, isVersionOpt, Bool.or_assoc]
    | s arg => simp [applyOpt, isVersionOpt, Bool.or_assoc]
    | d arg => simp [applyOpt, isVersionOpt, Bool.or_assoc]
    | p => simp [applyOpt, isVersionOpt, Bool.or_assoc]
    | unknown => simp [applyOpt, isVersionOpt, Bool.or_assoc]

theorem all_noHV (opts : List Opt) (h : opts.all noHelpVersionOpt = true) :
    opts.any isHelpOpt = false ∧ opts.any isVersionOpt = false := by
  induction opts with
  | nil => simp
  | cons o rest ih =>
    rw [List.all_cons, Bool.and_eq_true] at h
    obtain ⟨h1, h2⟩ := h
    obtain ⟨ih1, ih2⟩ := ih h2
    cases o <;> simp_all [noHelpVersionOpt, isHelpOpt, isVersionOpt]

theorem add_default_dirs_eq (cfg : BuildConfig) (env : Env) (rp : String)
    (h : run_prefix_of cfg env = Except.ok rp) :
    add_default_dirs cfg env = Except.ok (envDirs cfg env ++ installDirs cfg rp) := by
  unfold add_default_dirs envDirs installDirs
  rw [h]
  by_cases hw2 : cfg.platform = Platform.win32 <;>
  by_cases hn : cfg.nuvoton = true <;>
  cases h1 : env.getenv "HOME" <;>
  cases h2 : env.getenv "OPENOCD_SCRIPTS" <;>
  cases h3 : env.getenv "APPDATA" <;>
  simp [hw2, hn, h1, h2, h3]

theorem add_dirs_ok_iff (cfg : BuildConfig) (env : Env) :
    (∃ ds, add_default_dirs cfg env = Except.ok ds) ↔
    (∃ rp, run_prefix_of cfg env = Except.ok rp) := by
  cases hrp : run_prefix_of cfg env with
  | error e => simp [add_default_dirs, hrp]
  | ok rp => simp [add_default_dirs, hrp]

theorem run_prefix_ok_iff (cfg : BuildConfig) (env : Env) :
    (∃ rp, run_prefix_of cfg env = Except.ok rp) ↔
    (∃ dir, exeDirStripped cfg env = Except.ok dir) := by
  cases h : exeDirStripped cfg env with
  | error e => simp [run_prefix_of, h]
  | ok dir => simp [run_prefix_of, h]

theorem exeDirStripped_ok_iff (cfg : BuildConfig) (env : Env) :
    (∃ dir, exeDirStripped cfg env = Except.ok dir) ↔
    (∃ pth, find_exe_path cfg env = Except.ok (some pth) ∧
      pth.toList.contains '/' = true) := by
  cases hfe : find_exe_path cfg env with
  | error e => simp [exeDirStripped, hfe]
  | ok o =>
    cases o with
    | none => simp [exeDirStripped, hfe]
    | some pth =>
      cases hc : strrchrCut pth with
      | none =>
        have hnc : pth.toList.contains '/' = false := by
          by_cases hx : pth.toList.contains '/' = true
          · obtain ⟨t, ht⟩ := strrchrCut_of_contains pth hx
            rw [ht] at hc
            cases hc
          · simp only [Bool.not_eq_true] at hx
            exact hx
        have hnc2 : '/' ∉ pth.data := by simpa using hnc
        simp [exeDirStripped, hfe, hc, hnc2]
      | some dir =>
        have hmem : '/' ∈ pth.data := by
          simpa using strrchrCut_contains pth dir hc
        simp [exeDirStripped, hfe, hc, hmem]

theorem parse_ok_of (cfg : BuildConfig) (env : Env) (opts : List Opt) (ds : List String)
    (hh : opts.any isHelpOpt = false) (hv : opts.any isVersionOpt = false)
    (hdef : add_default_dirs cfg env = Except.ok ds) :
    parse_cmdline_args cfg env opts =
      ParseOutcome.ok
        { List.foldl applyOpt initState opts with
          searchDirs := opts.filterMap sArg ++ ds } := by
  have h1 : (List.foldl applyOpt initState opts).help_flag = false := by
    rw [foldl_help_flag]; simp [initState, hh]
  have h2 : (List.foldl applyOpt initState opts).version_flag = false := by
    rw [foldl_version_flag]; simp [initState, hv]
  have h3 : (List.foldl applyOpt initState opts).searchDirs = opts.filterMap sArg := by
    rw [foldl_searchDirs]; simp [initState]
  unfold parse_cmdline_args
  rw [h1, h2, hdef, h3]
  simp

/-- An environment for a native Windows build: the executable resolves
via `GetModuleFileName` to `C:\Tools\OpenOCD\bin\openocd.exe`. -/
def envWin : Env :=
  { getModuleFileName := some "C:\\Tools\\OpenOCD\\bin\\openocd.exe",
    procPidpath := none, sysctlPath := none,
    realpath := fun _ => none,
    getenv := fun _ => none }

/-! Claim theorems. -/

/-- C1 counterexample: the claim says an option vector holding an
unrecognized option makes `parse_cmdline_args` abort with a fatal
failure, consume no further arguments and never return `ERROR_OK`.
On the code, the `switch` has no `'?'` case, so with the stream a
`-x` followed by `-f extra.cfg` produces, parsing continues, the later
`-f` is still queued, and the call returns `ERROR_OK` with the default
directories added. -/
theorem C1_unknown_not_fatal_counterexample :
    parse_cmdline_args cfg0 env0 [Opt.unknown, Opt.f "extra.cfg"] =
      ParseOutcome.ok
        { queue := ["script \x7bextra.cfg\x7d"], executed := [],
          searchDirs := ["/usr/local/usr/local/share/openocd/site",
                         "/usr/local/usr/local/share/openocd/scripts"],
          help_flag := false, version_flag := false, warnings := 0 } := by
  decide

/-- C1 (amended): an unrecognized option makes `getopt_long` return
`'?'`, which the `switch` of `parse_cmdline_args` ignores (it has no
`'?'` or default case): the state is untouched, parsing continues with
the remaining arguments, and the overall result is the same as if the
unrecognized occurrences were absent — in particular `ERROR_OK` is
returned when no help/version was requested. -/
theorem C1_unknown_ignored :
    (∀ st, applyOpt st Opt.unknown = st) ∧
    (∀ cfg env opts, parse_cmdline_args cfg env opts =
        parse_cmdline_args cfg env (opts.filter isKnown)) := by
  constructor
  · intro st
    rfl
  · intro cfg env opts
    have hfold : ∀ (os : List Opt) (st : CmdState),
        List.foldl applyOpt st (os.filter isKnown) = List.foldl applyOpt st os := by
      intro os
      induction os with
      | nil => intro st; rfl
      | cons o rest ih =>
        intro st
        cases o <;> simp [List.filter_cons, isKnown, applyOpt, ih]
    unfold parse_cmdline_args
    rw [hfold opts initState]

/-- C2: the claim says run_prefix is the executable directory (the
executable path with exactly the trailing filename component stripped)
with the install-bin suffix removed when present, and that no
additional path component is removed.  The code strips a second
component: `find_exe_path` already removed the filename (line 122) and
`add_default_dirs` repeats `*strrchr(exepath, '/') = '\0'` (line 157)
under a stale "Strip executable file name" comment, contradicting
`find_exe_path`'s documented contract of returning the directory.  For
an executable at `/usr/local/bin/openocd` with
`BINDIR=/usr/local/bin` the code yields run_prefix `/usr/local`
(leaving `BINDIR` unstripped) instead of the documented `""`, and the
built-in script directories come out as
`/usr/local/usr/local/share/openocd/...`, defeating their stated
purpose. -/
theorem C2_run_prefix_double_strip :
    find_exe_path cfg0 env0 = Except.ok (some "/usr/local/bin") ∧
    run_prefix_of cfg0 env0 = Except.ok "/usr/local" ∧
    runPrefixSpec cfg0 env0 = Except.ok "" ∧
    add_default_dirs cfg0 env0 =
      Except.ok ["/usr/local/usr/local/share/openocd/site",
                 "/usr/local/usr/local/share/openocd/scripts"] :=
  ⟨by decide, by decide, by decide, by decide⟩

/-- C3 counterexample: the claim says `find_exe_path` returns a
non-null, non-empty string on every execution path, including when the
compiled-in BINDIR fallback is taken.  In an environment where every
platform lookup and every `realpath` call fails (e.g. `BINDIR` does
not exist at run time), the fallback `realpath(BINDIR)` is NULL and
`find_exe_path` returns it. -/
theorem C3_null_result_counterexample :
    find_exe_path cfg0 envNone = Except.ok none := by
  decide

/-- C3 (amended): `find_exe_path` returns a non-null directory
whenever a platform lookup yields a path containing a `'/'`; when
every platform mechanism fails it degrades to a logged warning and the
best-effort fallback `realpath(BINDIR)` (or `BINDIR` verbatim on
builds without realpath), so the result is null exactly when that
final `realpath` also fails. -/
theorem C3_fallback_behaviour :
    (∀ cfg env pth, platformExepath cfg env = some pth →
        pth.toList.contains '/' = true →
        ∃ dir, find_exe_path cfg env = Except.ok (some dir)) ∧
    (∀ cfg env, platformExepath cfg env = none →
        find_exe_path cfg env =
          Except.ok (if cfg.platform = Platform.win32 then some cfg.bindir
                     else env.realpath cfg.bindir)) := by
  constructor
  · intro cfg env pth hp hc
    obtain ⟨t, ht⟩ := strrchrCut_of_contains pth hc
    refine ⟨t, ?_⟩
    simp [find_exe_path, hp, ht]
  · intro cfg env hp
    unfold find_exe_path
    rw [hp]

/-- C3 witness: the amended theorem applied to the concrete POSIX
fixture (successful lookup) and to the all-lookups-fail fixture. -/
theorem C3_fallback_behaviour_witness :
    (∃ dir, find_exe_path cfg0 env0 = Except.ok (some dir)) ∧
    find_exe_path cfg0 envNone =
      Except.ok (if cfg0.platform = Platform.win32 then some cfg0.bindir
                 else envNone.realpath cfg0.bindir) :=
  ⟨C3_fallback_behaviour.1 cfg0 env0 "/usr/local/bin/openocd" (by decide) (by decide),
   C3_fallback_behaviour.2 cfg0 envNone (by decide)⟩

/-- C4: without `-h`/`-v`, the search directories registered during
the parse loop are exactly the `-s` arguments in order, and the final
list is those followed by the defaults that `add_default_dirs` appends
only after the full argument list is consumed — so every `-s`
directory precedes every built-in default. -/
theorem C4_search_dirs_precede_defaults (cfg : BuildConfig) (env : Env)
    (opts : List Opt) (ds : List String)
    (hnohv : opts.all noHelpVersionOpt = true)
    (hdef : add_default_dirs cfg env = Except.ok ds) :
    (List.foldl applyOpt initState opts).searchDirs = opts.filterMap sArg ∧
    parse_cmdline_args cfg env opts =
      ParseOutcome.ok
        { List.foldl applyOpt initState opts with
          searchDirs := opts.filterMap sArg ++ ds } := by
  obtain ⟨hh, hv⟩ := all_noHV opts hnohv
  exact ⟨by rw [foldl_searchDirs]; simp [initState],
         parse_ok_of cfg env opts ds hh hv hdef⟩

/-- C4 witness: two `-s` directories with an interleaved `-f`, on the
POSIX fixture. -/
theorem C4_search_dirs_precede_defaults_witness :
    (List.foldl applyOpt initState
        [Opt.s "/tmp/a", Opt.f "x.cfg", Opt.s "/tmp/b"]).searchDirs =
      [Opt.s "/tmp/a", Opt.f "x.cfg", Opt.s "/tmp/b"].filterMap sArg ∧
    parse_cmdline_args cfg0 env0 [Opt.s "/tmp/a", Opt.f "x.cfg", Opt.s "/tmp/b"] =
      ParseOutcome.ok
        { List.foldl applyOpt initState
            [Opt.s "/tmp/a", Opt.f "x.cfg", Opt.s "/tmp/b"] with
          searchDirs :=
            [Opt.s "/tmp/a", Opt.f "x.cfg", Opt.s "/tmp/b"].filterMap sArg ++
              ["/usr/local/usr/local/share/openocd/site",
               "/usr/local/usr/local/share/openocd/scripts"] } :=
  C4_search_dirs_precede_defaults cfg0 env0
    [Opt.s "/tmp/a", Opt.f "x.cfg", Opt.s "/tmp/b"]
    ["/usr/local/usr/local/share/openocd/site",
     "/usr/local/usr/local/share/openocd/scripts"]
    (by decide) (by decide)

/-- C5: without `-h`/`-v`, the final search-path list is the `-s`
directories in given order followed by exactly: `<HOME>/.openocd` when
`HOME` is set, the `OPENOCD_SCRIPTS` value when set,
`<APPDATA>/OpenOCD` on a `_WIN32` build when `APPDATA` is set, then
the run-prefix site directory and the run-prefix scripts directory;
an absent variable or platform condition silently skips that entry. -/
theorem C5_search_path_list (cfg : BuildConfig) (env : Env) (opts : List Opt)
    (rp : String)
    (hnohv : opts.all noHelpVersionOpt = true)
    (hrp : run_prefix_of cfg env = Except.ok rp) :
    ∃ st, parse_cmdline_args cfg env opts = ParseOutcome.ok st ∧
      st.searchDirs =
        opts.filterMap sArg
          ++ (match env.getenv "HOME" with
              | some home => [home ++ "/.openocd"]
              | none => [])
          ++ (match env.getenv "OPENOCD_SCRIPTS" with
              | some scr => [scr]
              | none => [])
          ++ (if cfg.platform = Platform.win32 then
                match env.getenv "APPDATA" with
                | some ad => [ad ++ "/OpenOCD"]
                | none => []
              else [])
          ++ installDirs cfg rp := by
  obtain ⟨hh, hv⟩ := all_noHV opts hnohv
  refine ⟨_, parse_ok_of cfg env opts _ hh hv (add_default_dirs_eq cfg env rp hrp), ?_⟩
  simp [envDirs, List.append_assoc]

/-- C5 witness: one `-s` directory on the POSIX fixture (no
environment variables set). -/
theorem C5_search_path_list_witness :
    ∃ st, parse_cmdline_args cfg0 env0 [Opt.s "/tmp/a"] = ParseOutcome.ok st ∧
      st.searchDirs =
        [Opt.s "/tmp/a"].filterMap sArg
          ++ (match env0.getenv "HOME" with
              | some home => [home ++ "/.openocd"]
              | none => [])
          ++ (match env0.getenv "OPENOCD_SCRIPTS" with
              | some scr => [scr]
              | none => [])
          ++ (if cfg0.platform = Platform.win32 then
                match env0.getenv "APPDATA" with
                | some ad => [ad ++ "/OpenOCD"]
                | none => []
              else [])
          ++ installDirs cfg0 "/usr/local" :=
  C5_search_path_list cfg0 env0 [Opt.s "/tmp/a"] "/usr/local" (by decide) (by decide)

/-- C6: when help was requested — regardless of any other options,
including `-v` and queued `-f`/`-c` directives — `parse_cmdline_args`
prints the fixed usage text and exits non-zero before the version
check and before `add_default_dirs` runs, so the exit-time state holds
no default search directory (only the `-s` arguments) and the deferred
queue is left unconsumed; when version but not help was requested the
process exits with status 0. -/
theorem C6_help_then_version (cfg : BuildConfig) (env : Env) (opts : List Opt) :
    ((List.foldl applyOpt initState opts).help_flag = true →
      parse_cmdline_args cfg env opts =
        ParseOutcome.exitFailure usageLines (List.foldl applyOpt initState opts) ∧
      (List.foldl applyOpt initState opts).searchDirs = opts.filterMap sArg) ∧
    ((List.foldl applyOpt initState opts).help_flag = false →
      (List.foldl applyOpt initState opts).version_flag = true →
      parse_cmdline_args cfg env opts =
        ParseOutcome.exitSuccess (List.foldl applyOpt initState opts)) := by
  constructor
  · intro hh
    refine ⟨?_, by rw [foldl_searchDirs]; simp [initState]⟩
    unfold parse_cmdline_args
    rw [hh]
    simp
  · intro hh hv
    unfold parse_cmdline_args
    rw [hh, hv]
    simp

/-- C6 witness: `-h -v -f a.cfg` exits with the usage text and no
defaults added; `-v` alone exits successfully. -/
theorem C6_help_then_version_witness :
    (parse_cmdline_args cfg0 env0 [Opt.h, Opt.v, Opt.f "a.cfg"] =
        ParseOutcome.exitFailure usageLines
          (List.foldl applyOpt initState [Opt.h, Opt.v, Opt.f "a.cfg"]) ∧
      (List.foldl applyOpt initState [Opt.h, Opt.v, Opt.f "a.cfg"]).searchDirs =
        [Opt.h, Opt.v, Opt.f "a.cfg"].filterMap sArg) ∧
    parse_cmdline_args cfg0 env0 [Opt.v] =
      ParseOutcome.exitSuccess (List.foldl applyOpt initState [Opt.v]) :=
  ⟨(C6_help_then_version cfg0 env0 [Opt.h, Opt.v, Opt.f "a.cfg"]).1 (by decide),
   (C6_help_then_version cfg0 env0 [Opt.v]).2 (by decide) (by decide)⟩

/-- C7: one `-f p` occurrence appends exactly one entry to the
deferred configuration queue, namely the `script` directive for `p`,
and changes nothing else — in particular nothing is executed
immediately. -/
theorem C7_file_queues_script (st : CmdState) (pth : String) :
    applyOpt st (Opt.f pth) =
      { st with queue := st.queue ++ ["script \x7b" ++ pth ++ "\x7d"] } :=
  rfl

/-- C8: `-d` with no argument immediately executes `debug_level 3`;
`-d N` immediately executes `debug_level N`; neither form touches the
deferred queue (only the executed list grows). -/
theorem C8_debug_immediate (st : CmdState) (lvl : String) :
    applyOpt st (Opt.d none) =
      { st with executed := st.executed ++ ["debug_level 3"] } ∧
    applyOpt st (Opt.d (some lvl)) =
      { st with executed := st.executed ++ ["debug_level " ++ lvl] } :=
  ⟨rfl, rfl⟩

/-- C9: `add_default_dirs` dereferences `strrchr(exepath, '/')`
unconditionally, so it completes exactly when `find_exe_path` returned
a non-null string containing at least one `'/'`; and the error branch
is reachable — both through a null `find_exe_path` result (all
realpath calls failing) and through a slash-free result (the
`strdup(BINDIR)` fallback of a Windows build with a relative
`BINDIR`). -/
theorem C9_strrchr_precondition :
    (∀ cfg env, (∃ ds, add_default_dirs cfg env = Except.ok ds) ↔
        (∃ pth, find_exe_path cfg env = Except.ok (some pth) ∧
          pth.toList.contains '/' = true)) ∧
    find_exe_path cfg0 envNone = Except.ok none ∧
    add_default_dirs cfg0 envNone = Except.error () ∧
    find_exe_path cfgWinNuv envNone = Except.ok (some "bin") ∧
    add_default_dirs cfgWinNuv envNone = Except.error () := by
  refine ⟨fun cfg env => ?_, by decide, by decide, by decide, by decide⟩
  exact (add_dirs_ok_iff cfg env).trans
    ((run_prefix_ok_iff cfg env).trans (exeDirStripped_ok_iff cfg env))

/-- C10: on a `_WIN32` build with `NUVOTON_CUSTOMIZED`, the suffix
stripped from the directory derived from the executable path is the
literal `"bin"` (not the configured `BINDIR`) and the
installation-relative defaults are `<run_prefix>/site` and
`<run_prefix>/scripts` with no pkgdatadir component; on every other
build the `BINDIR` suffix is stripped and the defaults are
`<run_prefix><PKGDATADIR>/site` and `<run_prefix><PKGDATADIR>/scripts`. -/
theorem C10_nuvoton_win32_variant (cfg : BuildConfig) (env : Env) (dir : String)
    (h : exeDirStripped cfg env = Except.ok dir) :
    (cfg.platform = Platform.win32 ∧ cfg.nuvoton = true →
      run_prefix_of cfg env = Except.ok (stripAtSuffix dir "bin") ∧
      add_default_dirs cfg env =
        Except.ok (envDirs cfg env ++
          [stripAtSuffix dir "bin" ++ "/site",
           stripAtSuffix dir "bin" ++ "/scripts"])) ∧
    (¬(cfg.platform = Platform.win32 ∧ cfg.nuvoton = true) →
      run_prefix_of cfg env = Except.ok (stripAtSuffix dir cfg.bindir) ∧
      add_default_dirs cfg env =
        Except.ok (envDirs cfg env ++
          [stripAtSuffix dir cfg.bindir ++ cfg.pkgdatadir ++ "/site",
           stripAtSuffix dir cfg.bindir ++ cfg.pkgdatadir ++ "/scripts"])) := by
  constructor
  · intro hcond
    have hrp : run_prefix_of cfg env = Except.ok (stripAtSuffix dir "bin") := by
      simp [run_prefix_of, h, hcond]
    refine ⟨hrp, ?_⟩
    rw [add_default_dirs_eq cfg env _ hrp]
    simp [installDirs, hcond]
  · intro hcond
    have hrp : run_prefix_of cfg env = Except.ok (stripAtSuffix dir cfg.bindir) := by
      simp [run_prefix_of, h, hcond]
    refine ⟨hrp, ?_⟩
    rw [add_default_dirs_eq cfg env _ hrp]
    simp [installDirs, hcond]

/-- C10 witness: the Windows Nuvoton fixture takes the `"bin"` branch
and the POSIX fixture takes the `BINDIR`/`PKGDATADIR` branch. -/
theorem C10_nuvoton_win32_variant_witness :
    (run_prefix_of cfgWinNuv envWin =
        Except.ok (stripAtSuffix "C:/Tools/OpenOCD" "bin") ∧
      add_default_dirs cfgWinNuv envWin =
        Except.ok (envDirs cfgWinNuv envWin ++
          [stripAtSuffix "C:/Tools/OpenOCD" "bin" ++ "/site",
           stripAtSuffix "C:/Tools/OpenOCD" "bin" ++ "/scripts"])) ∧
    (run_prefix_of cfg0 env0 = Except.ok (stripAtSuffix "/usr/local" cfg0.bindir) ∧
      add_default_dirs cfg0 env0 =
        Except.ok (envDirs cfg0 env0 ++
          [stripAtSuffix "/usr/local" cfg0.bindir ++ cfg0.pkgdatadir ++ "/site",
           stripAtSuffix "/usr/local" cfg0.bindir ++ cfg0.pkgdatadir ++ "/scripts"])) :=
  ⟨(C10_nuvoton_win32_variant cfgWinNuv envWin "C:/Tools/OpenOCD" (by decide)).1
      (by decide),
   (C10_nuvoton_win32_variant cfg0 env0 "/usr/local" (by decide)).2 (by decide)⟩

end OpenocdOptions
